import Mathlib

/-!
# Verification of the aiohttp-oauthlib OAuth2 session

A shallow embedding of `src/aiohttp_oauthlib.py`: the OAuth2-aware HTTP client
session that attaches bearer tokens to outgoing requests, refreshes expired
tokens through a configured auto-refresh endpoint, and exposes the token
exchange operations `fetch_token` / `refresh_token` plus the compliance-hook
registry.

The session's own control flow (`_request`, `fetch_token`, `refresh_token`,
`authorization_url`, `new_state`, the token setter, `authorized`,
`register_compliance_hook`, `_invoke_hooks`) is translated from the source.
The external collaborators the source delegates to — the oauthlib Grant
Client capability and the HTTP transport — are not part of this repository;
they are modelled from the spec's description of those capabilities (each such
definition carries a `Modelled from the spec:` doc comment).  Network calls
are recorded as an explicit event trace so that theorems can count transport
invocations.
-/

namespace AioOauth

/-- A Python string-or-None value, as stored in token mappings and passed for
optional string parameters that participate in truthiness tests. -/
inductive PyVal where
  | pynone : PyVal
  | str : String → PyVal
  deriving DecidableEq, Repr

/-- Python truthiness of a string-or-None value: `None` and `""` are falsy. -/
def pyTruthy : PyVal → Bool
  | .pynone => false
  | .str s => s ≠ ""

/-- Python `a or b` over string-or-None values. -/
def pyOr (a b : PyVal) : PyVal := if pyTruthy a then a else b

/-- The string carried by a string-or-None value (`""` for None). -/
def pyStr : PyVal → String
  | .pynone => ""
  | .str s => s

/-- Python truthiness for an optional string (`None` and `""` are falsy). -/
def optTruthy : Option String → Bool
  | some s => s ≠ ""
  | none => false

/-- A Token: a mapping from string keys to values (Python dict), e.g.
`{"access_token": ..., "token_type": ..., "refresh_token": ...}`. -/
abbrev Token := List (String × PyVal)

/-- Python `dict.get(k)`: the value at key `k`, or `None` when absent. -/
def tokGet (t : Token) (k : String) : PyVal := (t.lookup k).getD .pynone

/-- Python `k in dict`: key containment (distinct from `get` returning None). -/
def tokHasKey (t : Token) (k : String) : Bool := (t.lookup k).isSome

/-- ASCII lowercasing of a string (`str.lower()` on the URLs involved). -/
def strLower (s : String) : String := ⟨s.data.map Char.toLower⟩

/-- ASCII uppercasing of a string (`str.upper()` on the HTTP methods involved). -/
def strUpper (s : String) : String := ⟨s.data.map Char.toUpper⟩

/-- Modelled from the spec: `is_secure_transport` — an OAuth-relevant URL uses
a secure scheme iff it is an `https://` URL (scheme compared
case-insensitively).  The oauthlib helper this models is external to the
repository. -/
def isSecureTransport (url : String) : Bool :=
  ((strLower url).data.take 8) = "https://".data

/-- The Grant Client variant held by the session
(`WebApplicationClient` is the default). -/
inductive Variant where
  | web | legacy | backend | mobile
  deriving DecidableEq, Repr

/-- The observable state of an `OAuth2Session` (the fields of `__init__`
plus the Grant Client attributes the session reads and writes:
`_client.token`, `_client.access_token`, `_client.code`). -/
structure Session where
  /-- which `oauthlib.oauth2.Client` subclass `self._client` is -/
  variant : Variant
  /-- `self._client.token` (also read back via the `token` property) -/
  clientToken : Token
  /-- `self._client.access_token` (read via the `access_token` property) -/
  accessToken : PyVal
  /-- `self._client.code`: the authorization code stored on a web client -/
  clientCode : Option String
  /-- `self._client.client_id` -/
  clientId : Option String
  /-- `self.state`: `some s` for a caller-supplied literal string, `none` when
  it is a zero-argument callable (`generate_token` by default) -/
  stateAttr : Option String
  /-- `self._state`: the materialized state value used when parsing an
  authorization callback -/
  stateVal : Option String
  /-- `self.auto_refresh_url` -/
  autoRefreshUrl : Option String
  /-- `self.auto_refresh_kwargs` -/
  autoRefreshKwargs : List (String × PyVal)
  /-- whether `self.token_updater` is configured -/
  tokenUpdater : Bool
  /-- `self.redirect_uri` -/
  redirectUri : Option String
  /-- `self.scope` -/
  scope : Option String
  deriving DecidableEq, Repr

/-- Modelled from the spec: the `token` setter replaces the Token wholesale and
re-synchronizes the Grant Client's derived attributes from the new Token's
fields (`self._client.token = value; self._client._populate_attributes(value)`;
the populate step belongs to the external Grant Client capability).  The
derived attribute relevant here is the access token. -/
def setToken (s : Session) (v : Token) : Session :=
  { s with clientToken := v, accessToken := tokGet v "access_token" }

/-- The `authorized` property: `bool(self.access_token)`. -/
def authorized (s : Session) : Bool := pyTruthy s.accessToken

/-- The `__init__` constructor: stores the configuration, keeps the supplied
`state` both as `self.state` (literal-or-callable) and `self._state`, and
assigns `self.token = token or {}` through the token setter. -/
def mkSession (variant : Variant) (clientId : Option String) (token : Option Token)
    (state : Option String) (autoRefreshUrl : Option String) (tokenUpdater : Bool) :
    Session :=
  setToken
    { variant := variant
      clientToken := []
      accessToken := .pynone
      clientCode := none
      clientId := clientId
      stateAttr := state
      stateVal := state
      autoRefreshUrl := autoRefreshUrl
      autoRefreshKwargs := []
      tokenUpdater := tokenUpdater
      redirectUri := none
      scope := none }
    (token.getD [])

/-- The exceptions the session can raise. -/
inductive Err where
  /-- `InsecureTransportError` -/
  | insecureTransport : Err
  /-- `TokenExpiredError` -/
  | tokenExpired : Err
  /-- the `TokenUpdated` signal, carrying the refreshed token -/
  | tokenUpdated : Token → Err
  /-- `ValueError` with its message -/
  | valueError : String → Err
  /-- `MismatchingStateError` from callback parsing -/
  | mismatchingState : Err
  /-- `MissingCodeError` from callback parsing -/
  | missingCode : Err
  deriving DecidableEq, Repr

/-- One observable network-facing effect.  `transport method url` is a request
forwarded to the underlying HTTP transport (`super()._request` or the
token-endpoint request of `fetch_token`); `refreshCall url` is the POST
`refresh_token` issues against the refresh endpoint; `updater tok` is an
invocation of the configured token-updater callback (awaited before the
interceptor proceeds). -/
inductive Event where
  | transport : String → String → Event
  | refreshCall : String → Event
  | updater : Token → Event
  deriving DecidableEq, Repr

/-- Request headers. -/
abbrev Headers := List (String × String)

/-- The (url, headers, data) triple threaded through the request interceptor. -/
structure ReqData where
  url : String
  headers : Headers
  data : Option String
  deriving DecidableEq, Repr

/-- `_invoke_hooks`: folds every hook over the data, each hook receiving the
previous hook's output (`for hook in ...: hook_data = hook(*hook_data)`).
The list holds the hooks in the iteration order of the Python `set` that
stores them. -/
def invokeHooks {α : Type} (hooks : List (α → α)) (d : α) : α :=
  hooks.foldl (fun acc h => h acc) d

/-- Modelled from the spec: the Grant Client capability
`addToken(url, method, body, headers) -> (url, headers, body)` attaches the
held bearer access token as an `Authorization` header and fails with
TokenExpired if the held token's expiry has passed.  The expiry test (a clock
comparison internal to the external Grant Client) is supplied as the
parameter `expiredP`, applied to the client's held token. -/
def addToken (expiredP : Token → Bool) (tok : Token) (access : PyVal) (r : ReqData) :
    Except Unit ReqData :=
  if expiredP tok then .error ()
  else .ok { r with headers := ("Authorization", "Bearer " ++ pyStr access) :: r.headers }

/-- `refresh_token(token_url, refresh_token=None, ...)`, translated from the
source.  The network POST to the refresh endpoint is recorded as a
`refreshCall` event (the source sends it with `withhold_token=True`, so the
interceptor does not attach a token to it); `parsedResp` is the Token the
external Grant Client's `parse_request_body_response` produces from the
response body.  Returns the result, the session after the call, and the
event trace. -/
def refresh_token (s : Session) (token_url : String) (suppliedRT : PyVal)
    (parsedResp : Token) : Except Err Token × Session × List Event :=
  if token_url = "" then
    (.error (.valueError "No token endpoint set for auto_refresh."), s, [])
  else if ¬ isSecureTransport token_url then (.error .insecureTransport, s, [])
  else
    -- refresh_token = refresh_token or self.token.get("refresh_token")
    let rt := pyOr suppliedRT (tokGet s.clientToken "refresh_token")
    -- POST to the refresh endpoint, then
    -- self.token = self._client.parse_request_body_response(text, ...)
    let s1 := setToken s parsedResp
    -- if "refresh_token" not in self.token: self.token["refresh_token"] = rt
    if tokHasKey s1.clientToken "refresh_token" then
      (.ok s1.clientToken, s1, [.refreshCall token_url])
    else
      let t2 := s1.clientToken ++ [("refresh_token", rt)]
      (.ok t2, { s1 with clientToken := t2 }, [.refreshCall token_url])

/-- `_request`, the authenticated request interceptor, translated from the
source: checks transport security, runs the `protected_request` hooks and
attaches the token when one is held and not withheld, and on TokenExpired
refreshes once through the auto-refresh URL — retrying (after awaiting the
token updater) or signalling TokenUpdated.  `expiredP` is the Grant Client's
expiry test, `parsedResp` the token the refresh response parses to, and
`protHooks` the `protected_request` hook chain in its iteration order.
The synthesis of Basic auth credentials forwarded to the refresh call does
not affect any observable modelled here and is elided. -/
def requestIntercept (s : Session) (expiredP : Token → Bool) (parsedResp : Token)
    (protHooks : List (ReqData → ReqData)) (method url : String)
    (headers : Headers) (data : Option String) (withhold : Bool) :
    Except Err ReqData × Session × List Event :=
  if ¬ isSecureTransport url then (.error .insecureTransport, s, [])
  else if s.clientToken ≠ [] ∧ withhold = false then
    let r := invokeHooks protHooks ⟨url, headers, data⟩
    match addToken expiredP s.clientToken s.accessToken r with
    | .ok r1 =>
      -- fall through to: return await super()._request(method, url, ...)
      (.ok r1, s, [.transport method r1.url])
    | .error _ =>
      if optTruthy s.autoRefreshUrl then
        match refresh_token s (s.autoRefreshUrl.getD "") .pynone parsedResp with
        | (.error e, s1, evs) => (.error e, s1, evs)
        | (.ok t1, s1, evs) =>
          if s.tokenUpdater then
            -- await self.token_updater(token), then re-attach and fall through
            match addToken expiredP s1.clientToken s1.accessToken r with
            | .ok r2 => (.ok r2, s1, evs ++ [.updater t1, .transport method r2.url])
            | .error _ => (.error .tokenExpired, s1, evs ++ [.updater t1])
          else (.error (.tokenUpdated t1), s1, evs)
      else (.error .tokenExpired, s, [])
  else (.ok ⟨url, headers, data⟩, s, [.transport method url])

/-- The authorization callback URL (`authorization_response`), abstracted to
the query parameters the Grant Client reads from it. -/
structure CallbackUrl where
  code : Option String
  state : Option String
  deriving DecidableEq, Repr

/-- Modelled from the spec: the Grant Client capability
`parseRequestUriResponse(callbackUrl, expectedState) -> code` extracts the
authorization code from the callback URL; it fails if the state echoed in the
callback does not match the supplied expected state, or if the callback
carries no code. -/
def parseRequestUriResponse (cb : CallbackUrl) (expected : Option String) :
    Except Err String :=
  if cb.state ≠ expected then .error .mismatchingState
  else match cb.code with
    | some c => .ok c
    | none => .error .missingCode

/-- `fetch_token(token_url, ...)`, translated from the source: transport
security check, authorization-code resolution, the legacy-grant
username/password preconditions, clearing the token, the POST-or-GET method
check, the token-endpoint request (a `transport` event), and storing the
parsed token.  `parsedResp` is the Token the external Grant Client's
`parse_request_body_response` produces from the response body; the
construction of the request body and of the Basic-auth header is delegated
to the external Grant Client / transport capabilities and does not affect
any observable modelled here. -/
def fetch_token (s : Session) (token_url : String) (code : Option String)
    (authorization_response : Option CallbackUrl) (username password : Option String)
    (method : String) (parsedResp : Token) :
    Except Err Token × Session × List Event :=
  if ¬ isSecureTransport token_url then (.error .insecureTransport, s, [])
  else
    -- resolve the authorization code
    let resolved : Except Err (Option String × Session) :=
      if ¬ optTruthy code ∧ authorization_response.isSome then
        match parseRequestUriResponse (authorization_response.getD ⟨none, none⟩)
            s.stateVal with
        | .error e => .error e
        | .ok c => .ok (some c, { s with clientCode := some c })
      else if ¬ optTruthy code ∧ s.variant = .web then
        if optTruthy s.clientCode then .ok (s.clientCode, s)
        else .error (.valueError
          "Please supply either code or authorization_response parameters.")
      else .ok (code, s)
    match resolved with
    | .error e => (.error e, s, [])
    | .ok (_, s) =>
      if s.variant = .legacy ∧ username.isNone then
        (.error (.valueError
          "`LegacyApplicationClient` requires both the `username` and `password` parameters."),
         s, [])
      else if s.variant = .legacy ∧ password.isNone then
        (.error (.valueError
          "The required paramter `username` was supplied, but `password` was not."),
         s, [])
      else
        -- self.token = {}: clear the token before issuing the network call
        let s1 := setToken s []
        let m := strUpper method
        if m ≠ "POST" ∧ m ≠ "GET" then
          (.error (.valueError "The method kwarg must be POST or GET."), s1, [])
        else
          -- the token-endpoint request, then
          -- parse_request_body_response / self.token = self._client.token
          let s2 := setToken s1 parsedResp
          (.ok s2.clientToken, s2, [.transport m token_url])

/-- `new_state`: materializes `self._state` — calling `self.state` when it is
a zero-argument callable (whose produced value is the parameter `generated`),
re-using it when the call raises TypeError because it is a literal string. -/
def new_state (s : Session) (generated : String) : Session × String :=
  match s.stateAttr with
  | some lit => ({ s with stateVal := some lit }, lit)
  | none => ({ s with stateVal := some generated }, generated)

/-- Modelled from the spec: the Grant Client capability
`prepareAuthorizationUri(endpoint, redirectUri, scope, state, extra) -> uri`,
abstracted to the parameters embedded in the built URL. -/
structure AuthUrl where
  endpoint : String
  redirectUri : Option String
  scope : Option String
  state : String
  deriving DecidableEq, Repr

/-- `authorization_url(url, state=None)`: uses the supplied state when truthy,
otherwise materializes one via `new_state`, and returns the built URL paired
with that state. -/
def authorization_url (s : Session) (url : String) (state : Option String)
    (generated : String) : AuthUrl × String × Session :=
  if optTruthy state then
    (⟨url, s.redirectUri, s.scope, state.getD ""⟩, state.getD "", s)
  else
    let p := new_state s generated
    (⟨url, p.1.redirectUri, p.1.scope, p.2⟩, p.2, p.1)

deriving instance DecidableEq for Except

/-- The hooks registered at one hook point.  The source stores them in a
Python `set` (`self.compliance_hook[hook_type] = set()`); hooks are compared
by object identity, modelled as a `Nat` id.  The list holds the set's
elements in its iteration order, which the hash table determines — it is not
specified to be insertion order. -/
abbrev HookSet := List Nat

/-- `register_compliance_hook`'s `self.compliance_hook[hook_type].add(hook)`,
as a relation between the registry before and after: adding an element
already in the set leaves it unchanged; adding a new element yields a set
whose iteration order is some arrangement of the old elements and the new
one (the hash table fixes which one at run time). -/
def setAdd (s : HookSet) (f : Nat) (t : HookSet) : Prop :=
  if f ∈ s then t = s else t.Perm (f :: s)

/-- `_invoke_hooks` over a hook registry in the identity-modelled form:
folds the hook bodies (given by `interp`) over the data in the set's
iteration order, each hook receiving the previous hook's output. -/
def invokeHookIds {α : Type} (interp : Nat → α → α) (hooks : HookSet) (d : α) : α :=
  hooks.foldl (fun acc h => interp h acc) d

/-- The token a successful `refresh_token` call returns and stores: the parsed
refresh response, with the resolved prior refresh token re-inserted when the
response omits one. -/
def refreshedToken (s : Session) (suppliedRT : PyVal) (parsed : Token) : Token :=
  if tokHasKey parsed "refresh_token" then parsed
  else parsed ++ [("refresh_token", pyOr suppliedRT (tokGet s.clientToken "refresh_token"))]

/-- The session state after a successful `refresh_token` call: the parsed
token stored through the setter, then the refresh-token merge applied to the
stored mapping (a plain dict update, which does not re-run the setter). -/
def refreshedSession (s : Session) (suppliedRT : PyVal) (parsed : Token) : Session :=
  { setToken s parsed with clientToken := refreshedToken s suppliedRT parsed }

/-- A concrete session for evaluating the model: it holds a bearer token with
an old access token and a refresh token, an auto-refresh URL, and a
configured token updater. -/
def egSession : Session :=
  { variant := .web
    clientToken := [("access_token", .str "old"), ("token_type", .str "Bearer"),
                    ("refresh_token", .str "r")]
    accessToken := .str "old"
    clientCode := none
    clientId := none
    stateAttr := none
    stateVal := none
    autoRefreshUrl := some "https://refresh"
    autoRefreshKwargs := []
    tokenUpdater := true
    redirectUri := none
    scope := none }

/-- A concrete Grant Client expiry test: the held token is expired exactly
when its access token is still the old one. -/
def egExpired (t : Token) : Bool := decide (tokGet t "access_token" = .str "old")

/-- A concrete parsed refresh/fetch response lacking a `refresh_token`. -/
def egParsed : Token := [("access_token", .str "new")]

/-- Two marker hook bodies for exercising the hook chain: hook id 1 appends
`"a"` to the data, hook id 2 appends `"b"`, any other id is the identity. -/
def interpAB : Nat → String → String
  | 1, d => d ++ "a"
  | 2, d => d ++ "b"
  | _, d => d

/-! ## Helper lemmas -/

theorem lookup_append_right (l : List (String × PyVal)) (k : String) (v : PyVal)
    (h : l.lookup k = none) : (l ++ [(k, v)]).lookup k = some v := by
  induction l with
  | nil => simp [List.lookup]
  | cons p tl ih =>
    obtain ⟨k', v'⟩ := p
    by_cases hk : (k == k')
    · simp [List.lookup, hk] at h
    · simp only [List.cons_append, List.lookup, hk] at h ⊢
      exact ih h

/-- A successful refresh call: one POST against the refresh endpoint, the
merged token returned, the session updated to `refreshedSession`. -/
theorem refresh_token_spec (s : Session) (u : String) (rt : PyVal) (parsed : Token)
    (h1 : u ≠ "") (h2 : isSecureTransport u = true) :
    refresh_token s u rt parsed =
      (.ok (refreshedToken s rt parsed), refreshedSession s rt parsed,
       [.refreshCall u]) := by
  unfold refresh_token
  rw [if_neg h1, if_neg (by simp [h2])]
  by_cases hk : tokHasKey parsed "refresh_token" <;>
    simp [refreshedToken, refreshedSession, setToken, hk]

/-! ## Claims -/

/-- C3: `fetch_token`, `refresh_token`, and the request interceptor each fail
with `InsecureTransportError` when their (nonempty) target URL does not use a
secure scheme, before any network call is made: the event trace is empty, so
the underlying transport observes zero invocations for that call. -/
theorem insecure_url_rejected_before_network
    (s : Session) (url : String) (expiredP : Token → Bool) (parsed : Token)
    (protHooks : List (ReqData → ReqData)) (code : Option String)
    (cb : Option CallbackUrl) (un pw : Option String) (method : String)
    (suppliedRT : PyVal) (headers : Headers) (data : Option String) (wh : Bool)
    (h1 : isSecureTransport url = false) (h2 : url ≠ "") :
    fetch_token s url code cb un pw method parsed = (.error .insecureTransport, s, []) ∧
    refresh_token s url suppliedRT parsed = (.error .insecureTransport, s, []) ∧
    requestIntercept s expiredP parsed protHooks method url headers data wh =
      (.error .insecureTransport, s, []) := by
  refine ⟨?_, ?_, ?_⟩
  · unfold fetch_token; rw [if_pos (by simp [h1])]
  · unfold refresh_token; rw [if_neg h2, if_pos (by simp [h1])]
  · unfold requestIntercept; rw [if_pos (by simp [h1])]

/-- Witness for C3 at the concrete insecure URL `http://t`. -/
theorem insecure_url_rejected_before_network_witness :
    fetch_token egSession "http://t" none none none none "POST" egParsed =
      (.error .insecureTransport, egSession, []) ∧
    refresh_token egSession "http://t" .pynone egParsed =
      (.error .insecureTransport, egSession, []) ∧
    requestIntercept egSession egExpired egParsed [] "POST" "http://t" [] none false =
      (.error .insecureTransport, egSession, []) :=
  insecure_url_rejected_before_network egSession "http://t" egExpired egParsed []
    none none none none "POST" .pynone [] none false (by decide) (by decide)

/-- C4 counterexample: with the prior refresh token `"old"` stored, calling
`refresh_token` with the supplied empty-string refresh-token value `""` and a
response lacking `refresh_token` yields a token whose `refresh_token` is the
prior `"old"`, not the supplied `""`: Python's
`refresh_token = refresh_token or self.token.get("refresh_token")` discards a
falsy supplied value, contradicting the claim that the result equals the
value supplied to the call. -/
theorem refresh_empty_supplied_keeps_prior :
    (refresh_token (setToken egSession [("refresh_token", .str "old")]) "https://t"
        (.str "") egParsed).1
      = .ok [("access_token", .str "new"), ("refresh_token", .str "old")] ∧
    tokGet [("access_token", PyVal.str "new"), ("refresh_token", PyVal.str "old")]
        "refresh_token" ≠ .str "" := by decide

/-- C4 (amended): for a refresh response lacking `refresh_token`, the
returned and stored token's `refresh_token` is the value supplied to the call
when that value is truthy (not None and not empty), and otherwise the
session's prior token's `refresh_token` field — Python
`supplied or prior.get("refresh_token")`. -/
theorem refresh_missing_refresh_token_merge
    (s : Session) (u : String) (suppliedRT : PyVal) (parsed : Token)
    (h1 : u ≠ "") (h2 : isSecureTransport u = true)
    (h3 : parsed.lookup "refresh_token" = none) :
    refresh_token s u suppliedRT parsed =
      (.ok (parsed ++
          [("refresh_token", pyOr suppliedRT (tokGet s.clientToken "refresh_token"))]),
       refreshedSession s suppliedRT parsed, [.refreshCall u]) ∧
    tokGet (refreshedSession s suppliedRT parsed).clientToken "refresh_token"
      = pyOr suppliedRT (tokGet s.clientToken "refresh_token") := by
  have hk : tokHasKey parsed "refresh_token" = false := by simp [tokHasKey, h3]
  constructor
  · rw [refresh_token_spec s u suppliedRT parsed h1 h2]
    simp [refreshedToken, hk]
  · simp [refreshedSession, refreshedToken, setToken, hk, tokGet,
      lookup_append_right _ _ _ h3]

/-- Witness for C4 (amended): no refresh token supplied, so the prior `"r"`
is re-inserted into the refreshed token. -/
theorem refresh_missing_refresh_token_merge_witness :
    refresh_token egSession "https://t" .pynone egParsed =
      (.ok (egParsed ++
          [("refresh_token", pyOr .pynone (tokGet egSession.clientToken "refresh_token"))]),
       refreshedSession egSession .pynone egParsed, [.refreshCall "https://t"]) ∧
    tokGet (refreshedSession egSession .pynone egParsed).clientToken "refresh_token"
      = pyOr .pynone (tokGet egSession.clientToken "refresh_token") :=
  refresh_missing_refresh_token_merge egSession "https://t" .pynone egParsed
    (by decide) (by decide) (by decide)

/-- C7 counterexample: a session whose current token is the non-empty mapping
`{"refresh_token": "r"}` — no `access_token` field — has `authorized = false`,
contradicting the claim that every non-empty token implies authorized. -/
theorem nonempty_token_not_authorized :
    (setToken (mkSession .web none none none none false)
        [("refresh_token", .str "r")]).clientToken ≠ [] ∧
    authorized (setToken (mkSession .web none none none none false)
        [("refresh_token", .str "r")]) = false := by decide

/-- C7 (amended): for every session whose current token carries a non-empty
`access_token` value, the `authorized` property is true. -/
theorem token_with_access_token_authorized
    (s : Session) (v : Token) (a : String)
    (h1 : v.lookup "access_token" = some (.str a)) (h2 : a ≠ "") :
    authorized (setToken s v) = true := by
  simp [authorized, setToken, tokGet, pyTruthy, h1, h2]

/-- Witness for C7 (amended): a token with access token `"x"` authorizes. -/
theorem token_with_access_token_authorized_witness :
    authorized (setToken (mkSession .web none none none none false)
      [("access_token", .str "x")]) = true :=
  token_with_access_token_authorized (mkSession .web none none none none false)
    [("access_token", .str "x")] "x" rfl (by decide)

/-- C9: `fetch_token` empties the session's token before issuing the network
call; with a method other than POST or GET (case-insensitively) it fails with
the InvalidArgument ValueError, the event trace is empty (the transport is
never invoked), and at that failure the session's token is the empty mapping,
so `authorized` is false. -/
theorem fetch_token_bad_method_clears_token
    (s : Session) (url method : String) (parsed : Token) (c : String)
    (h1 : isSecureTransport url = true)
    (h2 : strUpper method ≠ "POST") (h3 : strUpper method ≠ "GET")
    (h4 : s.variant ≠ .legacy) (h5 : c ≠ "") :
    fetch_token s url (some c) none none none method parsed =
      (.error (.valueError "The method kwarg must be POST or GET."),
       setToken s [], []) ∧
    (setToken s []).clientToken = [] ∧ authorized (setToken s []) = false := by
  refine ⟨?_, rfl, by simp [authorized, setToken, tokGet, pyTruthy]⟩
  unfold fetch_token
  rw [if_neg (by simp [h1])]
  have hcode : optTruthy (some c) = true := by simp [optTruthy, h5]
  simp [hcode, h4, h2, h3]

/-- A nodup registry decomposes around any member, and the `_invoke_hooks`
fold applies that member exactly once, at its position in the iteration
order. -/
theorem mem_nodup_fold_once {α : Type} (interp : Nat → α → α) (d : α)
    (u : HookSet) (f : Nat) (hu : u.Nodup) (hm : f ∈ u) :
    ∃ l₁ l₂, u = l₁ ++ f :: l₂ ∧ f ∉ l₁ ∧ f ∉ l₂ ∧
      invokeHookIds interp u d =
        invokeHookIds interp l₂ (interp f (invokeHookIds interp l₁ d)) := by
  obtain ⟨l₁, l₂, rfl⟩ := List.append_of_mem hm
  rw [List.nodup_append] at hu
  obtain ⟨-, h2, hdisj⟩ := hu
  have hfl2 : f ∉ l₂ := (List.nodup_cons.1 h2).1
  have hfl1 : f ∉ l₁ := fun hin => hdisj hin (List.mem_cons_self f l₂)
  exact ⟨l₁, l₂, rfl, hfl1, hfl2, by simp [invokeHookIds, List.foldl_append]⟩

/-- C1: when the held token's attachment raises TokenExpired and both an
auto-refresh URL and a token updater are configured, the interceptor performs
exactly one refresh call against the auto-refresh URL, awaits exactly one
invocation of the token updater with the refreshed token before proceeding,
re-attaches the refreshed token (the Authorization header now carries the
refreshed access token), and forwards the request to the underlying transport
exactly once — the event trace is exactly
`[refreshCall, updater, transport]`; if the re-attachment raises TokenExpired
a second time, no second refresh or transport call happens and the error
propagates — the trace is exactly `[refreshCall, updater]`. -/
theorem request_expired_refresh_updater_retry
    (s : Session) (expiredP : Token → Bool) (parsed : Token)
    (protHooks : List (ReqData → ReqData)) (method url aru : String)
    (headers : Headers) (data : Option String)
    (h1 : isSecureTransport url = true)
    (h2 : s.clientToken ≠ [])
    (h3 : s.autoRefreshUrl = some aru) (h4 : aru ≠ "")
    (h5 : isSecureTransport aru = true)
    (h6 : s.tokenUpdater = true)
    (h7 : expiredP s.clientToken = true) :
    (expiredP (refreshedToken s .pynone parsed) = false →
      requestIntercept s expiredP parsed protHooks method url headers data false =
        (.ok { invokeHooks protHooks ⟨url, headers, data⟩ with
                headers := ("Authorization",
                    "Bearer " ++ pyStr (tokGet parsed "access_token")) ::
                  (invokeHooks protHooks ⟨url, headers, data⟩).headers },
         refreshedSession s .pynone parsed,
         [.refreshCall aru, .updater (refreshedToken s .pynone parsed),
          .transport method (invokeHooks protHooks ⟨url, headers, data⟩).url])) ∧
    (expiredP (refreshedToken s .pynone parsed) = true →
      requestIntercept s expiredP parsed protHooks method url headers data false =
        (.error .tokenExpired, refreshedSession s .pynone parsed,
         [.refreshCall aru, .updater (refreshedToken s .pynone parsed)])) := by
  have hopt : optTruthy s.autoRefreshUrl = true := by simp [h3, optTruthy, h4]
  constructor <;> intro hE <;>
    simp [requestIntercept, h1, h2, h3, h4, h6, h7, hE, hopt, optTruthy, addToken,
      refresh_token_spec s aru .pynone parsed h4 h5, refreshedSession, setToken]

/-- Witness for C1: the old access token is expired, the refreshed one is
not; the retried request goes out bearing the refreshed access token. -/
theorem request_expired_refresh_updater_retry_witness :
    requestIntercept egSession egExpired egParsed [] "GET" "https://api" [] none false =
      (.ok ⟨"https://api", [("Authorization", "Bearer new")], none⟩,
       refreshedSession egSession .pynone egParsed,
       [.refreshCall "https://refresh",
        .updater (refreshedToken egSession .pynone egParsed),
        .transport "GET" "https://api"]) :=
  (request_expired_refresh_updater_retry egSession egExpired egParsed [] "GET"
    "https://api" "https://refresh" [] none (by decide) (by decide) rfl (by decide)
    (by decide) rfl (by decide)).1 (by decide)

/-- C2: when the held token's attachment raises TokenExpired: with no
(truthy) auto-refresh URL configured the call fails with TokenExpired and an
empty event trace; with an auto-refresh URL but no token updater it fails
with the TokenUpdated signal carrying the newly refreshed token and a trace
containing only the refresh call — in both cases the original request is
never forwarded to the underlying transport. -/
theorem request_expired_no_refresh_or_no_updater
    (s : Session) (expiredP : Token → Bool) (parsed : Token)
    (protHooks : List (ReqData → ReqData)) (method url : String)
    (headers : Headers) (data : Option String)
    (h1 : isSecureTransport url = true)
    (h2 : s.clientToken ≠ [])
    (h7 : expiredP s.clientToken = true) :
    (optTruthy s.autoRefreshUrl = false →
      requestIntercept s expiredP parsed protHooks method url headers data false =
        (.error .tokenExpired, s, [])) ∧
    (∀ aru, s.autoRefreshUrl = some aru → aru ≠ "" → isSecureTransport aru = true →
      s.tokenUpdater = false →
      requestIntercept s expiredP parsed protHooks method url headers data false =
        (.error (.tokenUpdated (refreshedToken s .pynone parsed)),
         refreshedSession s .pynone parsed, [.refreshCall aru])) := by
  constructor
  · intro hA
    simp [requestIntercept, h1, h2, h7, hA, addToken]
  · intro aru h3 h4 h5 h6
    have hopt : optTruthy s.autoRefreshUrl = true := by simp [h3, optTruthy, h4]
    simp [requestIntercept, h1, h2, h3, h4, h6, h7, hopt, optTruthy, addToken,
      refresh_token_spec s aru .pynone parsed h4 h5]

/-- Witness for C2: with no token updater configured, the refreshed token is
delivered through the TokenUpdated signal and the request is not forwarded. -/
theorem request_expired_no_refresh_or_no_updater_witness :
    requestIntercept { egSession with tokenUpdater := false } egExpired egParsed []
        "GET" "https://api" [] none false =
      (.error (.tokenUpdated
          (refreshedToken { egSession with tokenUpdater := false } .pynone egParsed)),
       refreshedSession { egSession with tokenUpdater := false } .pynone egParsed,
       [.refreshCall "https://refresh"]) :=
  (request_expired_no_refresh_or_no_updater { egSession with tokenUpdater := false }
    egExpired egParsed [] "GET" "https://api" [] none (by decide) (by decide)
    (by decide)).2 "https://refresh" rfl (by decide) (by decide) rfl

/-- Witness for C9 at the concrete method `"PUT"`. -/
theorem fetch_token_bad_method_clears_token_witness :
    fetch_token egSession "https://t" (some "c") none none none "PUT" egParsed =
      (.error (.valueError "The method kwarg must be POST or GET."),
       setToken egSession [], []) ∧
    (setToken egSession []).clientToken = [] ∧
    authorized (setToken egSession []) = false :=
  fetch_token_bad_method_clears_token egSession "https://t" "PUT" egParsed "c"
    (by decide) (by decide) (by decide) (by decide) (by decide)

/-- C5 counterexample: a session constructed with the state literal `"A"`,
given the explicit per-call state `"B"`, returns and embeds `"B"` — but does
not store it: `self._state` stays `"A"`, and `fetch_token` then rejects the
callback echoing the returned `"B"` with MismatchingStateError, contradicting
the claim that the returned state is accepted for every caller-supplied
state. -/
theorem authorization_url_explicit_state_not_accepted :
    (authorization_url (mkSession .web none none (some "A") none false)
        "https://auth" (some "B") "G").2.1 = "B" ∧
    (authorization_url (mkSession .web none none (some "A") none false)
        "https://auth" (some "B") "G").1.state = "B" ∧
    (authorization_url (mkSession .web none none (some "A") none false)
        "https://auth" (some "B") "G").2.2.stateVal = some "A" ∧
    (fetch_token (authorization_url (mkSession .web none none (some "A") none false)
          "https://auth" (some "B") "G").2.2 "https://t" none
        (some ⟨some "c", some "B"⟩) none none "POST" egParsed).1
      = .error .mismatchingState := by decide

/-- C5 (amended): for every state value, the state returned as the second
element of `authorization_url`'s result is the one embedded in the built URL;
moreover, whenever the state is materialized through `new_state` (no truthy
per-call state override), that state is also stored as `self._state` and is
subsequently accepted by `fetch_token` when the callback URL echoing it is
passed as `authorization_response`: the call parses the code and returns the
token parsed from the response. -/
theorem authorization_url_state_roundtrip
    (s : Session) (ep gen tokUrl c : String) (parsed : Token) (stArg : Option String)
    (h1 : isSecureTransport tokUrl = true)
    (hL : s.variant ≠ .legacy) :
    (authorization_url s ep stArg gen).1.state = (authorization_url s ep stArg gen).2.1 ∧
    (authorization_url s ep none gen).2.2.stateVal
      = some (authorization_url s ep none gen).2.1 ∧
    fetch_token (authorization_url s ep none gen).2.2 tokUrl none
        (some ⟨some c, some (authorization_url s ep none gen).2.1⟩) none none
        "POST" parsed =
      (.ok parsed,
       setToken { (authorization_url s ep none gen).2.2 with clientCode := some c }
         parsed,
       [.transport "POST" tokUrl]) := by
  have hm : strUpper "POST" = "POST" := by decide
  refine ⟨?_, ?_, ?_⟩
  · by_cases ht : optTruthy stArg
    · simp [authorization_url, ht]
    · cases s.stateAttr <;> simp [authorization_url, new_state, ht]
  · cases hsa : s.stateAttr <;> simp [authorization_url, new_state, optTruthy, hsa]
  · cases hsa : s.stateAttr <;>
      simp [authorization_url, new_state, optTruthy, hsa, fetch_token,
        parseRequestUriResponse, h1, hL, hm, setToken, tokGet]

/-- Witness for C5 (amended): a generated state `"G"` round-trips through the
authorization URL and is accepted by `fetch_token`. -/
theorem authorization_url_state_roundtrip_witness :
    (authorization_url (mkSession .web none none none none false)
        "https://auth" (some "X") "G").1.state
      = (authorization_url (mkSession .web none none none none false)
        "https://auth" (some "X") "G").2.1 ∧
    (authorization_url (mkSession .web none none none none false)
        "https://auth" none "G").2.2.stateVal
      = some (authorization_url (mkSession .web none none none none false)
        "https://auth" none "G").2.1 ∧
    fetch_token (authorization_url (mkSession .web none none none none false)
        "https://auth" none "G").2.2 "https://t" none
        (some ⟨some "c",
          some (authorization_url (mkSession .web none none none none false)
            "https://auth" none "G").2.1⟩) none none "POST" egParsed =
      (.ok egParsed,
       setToken { (authorization_url (mkSession .web none none none none false)
          "https://auth" none "G").2.2 with clientCode := some "c" } egParsed,
       [.transport "POST" "https://t"]) :=
  authorization_url_state_roundtrip (mkSession .web none none none none false)
    "https://auth" "G" "https://t" "c" egParsed (some "X") (by decide) (by decide)

/-- C8: with the legacy/password Grant Client, `fetch_token` without a
username fails with the InvalidArgument ValueError naming both parameters;
with a username but no password it fails with a distinguishable message (the
two messages differ); with both supplied it proceeds, issues the
token-endpoint request, and returns the Token parsed from the response. -/
theorem legacy_username_password_required
    (s : Session) (url : String) (parsed : Token)
    (hv : s.variant = .legacy)
    (h1 : isSecureTransport url = true) :
    fetch_token s url none none none none "POST" parsed =
      (.error (.valueError
        "`LegacyApplicationClient` requires both the `username` and `password` parameters."),
       s, []) ∧
    (∀ u, fetch_token s url none none (some u) none "POST" parsed =
      (.error (.valueError
        "The required paramter `username` was supplied, but `password` was not."),
       s, [])) ∧
    ("`LegacyApplicationClient` requires both the `username` and `password` parameters."
      ≠ "The required paramter `username` was supplied, but `password` was not.") ∧
    (∀ u p, fetch_token s url none none (some u) (some p) "POST" parsed =
      (.ok parsed, setToken s parsed, [.transport "POST" url])) := by
  have hm : strUpper "POST" = "POST" := by decide
  have hw : s.variant ≠ Variant.web := by rw [hv]; intro h; cases h
  refine ⟨?_, fun u => ?_, by decide, fun u p => ?_⟩ <;>
    simp [fetch_token, h1, hv, hw, optTruthy, hm, setToken]

/-- Witness for C8: with both credentials supplied, the parsed token is
returned. -/
theorem legacy_username_password_required_witness :
    fetch_token { egSession with variant := .legacy } "https://t" none none
        (some "u") (some "p") "POST" egParsed =
      (.ok egParsed, setToken { egSession with variant := .legacy } egParsed,
       [.transport "POST" "https://t"]) :=
  (legacy_username_password_required { egSession with variant := .legacy }
    "https://t" egParsed rfl (by decide)).2.2.2 "u" "p"

/-- C6 counterexample: hooks are stored in a Python `set`, whose iteration
order is fixed by the hash table, not by insertion order.  Registering hook 1
and then hook 2 can validly leave the registry in iteration order `[2, 1]`
(a permitted `setAdd` outcome), and `_invoke_hooks` then applies hook 2
first: on the input `""` the chain yields `"ba"`, which differs from the
registration-order result `"ab"` — refuting the claim that hooks are applied
in registration order. -/
theorem invoke_hooks_not_registration_order :
    setAdd [] 1 [1] ∧ setAdd [1] 2 [2, 1] ∧
    invokeHookIds interpAB [1, 2] "" = "ab" ∧
    invokeHookIds interpAB [2, 1] "" ≠ invokeHookIds interpAB [1, 2] "" := by
  refine ⟨by simp [setAdd], by simp [setAdd], by decide, by decide⟩

/-- C6 (amended): `_invoke_hooks` folds the registered hooks over the input
values in the registry's iteration order — which, hooks being stored in a
Python set, is unspecified and need not be the registration order — each
hook receiving the previous hook's output, the final value returned; with
zero registered hooks the input is returned unchanged. -/
theorem invoke_hooks_chain {α : Type} (hooks₁ hooks₂ : List (α → α))
    (h : α → α) (d : α) :
    invokeHooks ([] : List (α → α)) d = d ∧
    invokeHooks (hooks₁ ++ hooks₂) d = invokeHooks hooks₂ (invokeHooks hooks₁ d) ∧
    invokeHooks (hooks₁ ++ [h]) d = h (invokeHooks hooks₁ d) := by
  refine ⟨rfl, ?_, ?_⟩ <;> simp [invokeHooks, List.foldl_append]

/-- C10: registering the same hook object twice leaves the registry
containing it exactly once (the second `set.add` is a no-op on a set already
holding the element), the registry stays duplicate-free, and a subsequent
`_invoke_hooks` applies that hook exactly once — the iteration order
decomposes around the hook's single occurrence and the fold applies it at
exactly that position. -/
theorem register_hook_idempotent
    (s t u : HookSet) (f : Nat) {α : Type} (interp : Nat → α → α) (d : α)
    (hs : s.Nodup) (h1 : setAdd s f t) (h2 : setAdd t f u) :
    u = t ∧ u.count f = 1 ∧ u.Nodup ∧
    ∃ l₁ l₂, u = l₁ ++ f :: l₂ ∧ f ∉ l₁ ∧ f ∉ l₂ ∧
      invokeHookIds interp u d =
        invokeHookIds interp l₂ (interp f (invokeHookIds interp l₁ d)) := by
  unfold setAdd at h1 h2
  by_cases hf : f ∈ s
  · rw [if_pos hf] at h1
    rw [h1, if_pos hf] at h2
    rw [h2, h1]
    exact ⟨rfl, List.count_eq_one_of_mem hs hf, hs,
      mem_nodup_fold_once interp d s f hs hf⟩
  · rw [if_neg hf] at h1
    have hft : f ∈ t := h1.mem_iff.2 (List.mem_cons_self f s)
    rw [if_pos hft] at h2
    have ht : t.Nodup := h1.nodup_iff.2 (List.nodup_cons.2 ⟨hf, hs⟩)
    rw [h2]
    exact ⟨rfl, List.count_eq_one_of_mem ht hft, ht,
      mem_nodup_fold_once interp d t f ht hft⟩

/-- Witness for C10 at the concrete registry `[]`, hook id 5, identity
interpretation. -/
theorem register_hook_idempotent_witness :
    ([5] : HookSet) = [5] ∧ List.count 5 [5] = 1 ∧ ([5] : HookSet).Nodup ∧
    ∃ l₁ l₂, ([5] : HookSet) = l₁ ++ 5 :: l₂ ∧ 5 ∉ l₁ ∧ 5 ∉ l₂ ∧
      invokeHookIds (fun _ d => d) [5] ""
        = invokeHookIds (fun _ d => d) l₂
            ((fun (_ : Nat) (d : String) => d) 5 (invokeHookIds (fun _ d => d) l₁ "")) :=
  register_hook_idempotent [] [5] [5] 5 (fun _ d => d) ""
    (by simp) (by simp [setAdd]) (by simp [setAdd])

end AioOauth
